import Mathlib

/-!
Shallow embedding of `hikari/net/gateway.py` (class `GatewayClient`), the
single-threaded asyncio V7 gateway client.  Timestamps produced by
`time.perf_counter()` are modelled as `Option ℚ`: `none` stands for the float
`NaN` used by the source as the "absent" value, and `some q` for an actual
(non-NaN) sample; IEEE comparisons involving `NaN` are false, which the
`nanLt`/`nanGe` helpers reproduce.  Coroutine methods become pure functions
from an explicit state, returning the outbound payloads / effects they would
produce, with `Except` for raised gateway errors.
-/

/-- JSON values, the payloads moved through the gateway.  The JSON
serializer/deserializer pair is injectable in the source (`json_serialize`,
`json_deserialize`), so payloads are modelled structurally. -/
inductive JsonV where
  | null
  | bool (b : Bool)
  | num (q : ℚ)
  | str (s : String)
  | arr (elems : List JsonV)
  | obj (fields : List (String × JsonV))

/-- Python truthiness (`bool(d)`) restricted to JSON values, as used by
`poll_events` for opcode 9: `resumable = bool(d)`. -/
def jsonTruthy : JsonV → Bool
  | .null => false
  | .bool b => b
  | .num q => q ≠ 0
  | .str s => s ≠ ""
  | .arr l => !l.isEmpty
  | .obj f => !f.isEmpty

/-- `pl["k"]` on a JSON object: first binding of the key, `none` when the
value is not an object or the key is missing (a Python `KeyError`). -/
def jget (j : JsonV) (k : String) : Option JsonV :=
  match j with
  | .obj fields => fields.lookup k
  | _ => none

/-- Field `k` of the `"d"` object of a payload. -/
def jgetD (j : JsonV) (k : String) : Option JsonV :=
  (jget j "d").bind (fun d => jget d k)

/-- `None`-or-integer JSON encoding, for `seq`. -/
def optIntJson : Option Int → JsonV
  | none => .null
  | some n => .num (n : ℚ)

/-- `None`-or-string JSON encoding, for `session_id`. -/
def optStrJson : Option String → JsonV
  | none => .null
  | some s => .str s

/-- The errors of `hikari/net/errors.py` as raised from `gateway.py` call
sites: `GatewayError(msg)`, `GatewayZombiedError`, `GatewayMustReconnectError`,
`GatewayInvalidSessionError(resumable)`, `GatewayInvalidTokenError`,
`GatewayNeedsShardingError`, `GatewayConnectionClosedError(code)`,
`GatewayClientClosedError`.  The extra constructor `payloadTooLarge` is
Modelled from the spec: the error taxonomy of the spec lists a dedicated
*PayloadTooLarge(size)* variant, which no call site of `gateway.py` raises; it
is included solely so that statements about that variant can be written. -/
inductive GwError where
  | gatewayError (msg : String)
  | zombied
  | mustReconnect
  | invalidSession (resumable : Bool)
  | invalidToken
  | needsSharding
  | connectionClosed (close_code : Nat)
  | clientClosed
  | payloadTooLarge (size : Nat)
deriving DecidableEq

/-- Discriminator for the spec-modelled dedicated oversize error. -/
def GwError.is_payload_too_large : GwError → Bool
  | .payloadTooLarge _ => true
  | _ => false

/-- Discriminator for the generic `GatewayError(msg)` class. -/
def GwError.is_gateway_error : GwError → Bool
  | .gatewayError _ => true
  | _ => false

/-- IEEE-style `<` on NaN-able timestamps: false whenever either side is NaN
(`none`), exactly the behaviour of the float comparison on line 201 of
`gateway.py`. -/
def nanLt : Option ℚ → Option ℚ → Bool
  | some a, some b => decide (a < b)
  | _, _ => false

/-- IEEE-style `≥` on NaN-able timestamps: false whenever either side is NaN. -/
def nanGe : Option ℚ → Option ℚ → Bool
  | some a, some b => decide (b ≤ a)
  | _, _ => false

/-- Mutable state of a `GatewayClient` instance.  `ws`/`session_open` model
`self.ws`/`self.session`: `none` is the attribute still being `None`,
`some true` an open handle, `some false` a closed one. -/
structure GatewayState where
  closed_event : Bool
  connected_at : Option ℚ
  last_heartbeat_sent : Option ℚ
  last_heartbeat_ack_received : Option ℚ
  last_ping_sent : Option ℚ
  last_pong_received : Option ℚ
  presence : Option JsonV
  session_open : Option Bool
  session_id : Option String
  seq : Option Int
  shard_id : Nat
  shard_count : Nat
  token : String
  large_threshold : Nat
  guild_subscriptions : Bool
  compression : Bool
  ws : Option Bool

/-- Keyword arguments of `GatewayClient.__init__`, with the default
values. -/
structure InitArgs where
  compression : Bool := true
  guild_subscriptions : Bool := true
  initial_presence : Option JsonV := none
  large_threshold : Nat := 1000
  session_id : Option String := none
  seq : Option Int := none
  shard_id : Option Nat := some 0
  shard_count : Option Nat := some 1
  token : String
  url : String

/-- `GatewayClient.__init__`: all timing samples start as NaN, the close latch
is unset, no socket or session exists, and the shard pair falls back to `0/1`
when either argument is `None`. -/
def GatewayClient.init (a : InitArgs) : GatewayState where
  closed_event := false
  connected_at := none
  last_heartbeat_sent := none
  last_heartbeat_ack_received := none
  last_ping_sent := none
  last_pong_received := none
  presence := a.initial_presence
  session_open := none
  session_id := a.session_id
  seq := a.seq
  shard_id := match a.shard_id, a.shard_count with
    | some i, some _ => i
    | _, _ => 0
  shard_count := match a.shard_id, a.shard_count with
    | some _, some c => c
    | _, _ => 1
  token := a.token
  large_threshold := a.large_threshold
  guild_subscriptions := a.guild_subscriptions
  compression := a.compression
  ws := none

/-- `is_connected` property: `not math.isnan(self.connected_at)`. -/
def is_connected (st : GatewayState) : Bool :=
  st.connected_at.isSome

/-- The heartbeat payload of `heartbeat_keep_alive`: `{"op": 1, "d": self.seq}`. -/
def heartbeat_payload (seq : Option Int) : JsonV :=
  .obj [("op", .num 1), ("d", optIntJson seq)]

/-- Result of one cycle of the `heartbeat_keep_alive` loop body. -/
inductive HbOutcome where
  | zombied
  | sent (payload : JsonV) (st : GatewayState)

/-- Discriminator: did the cycle raise `GatewayZombiedError`? -/
def HbOutcome.is_zombied : HbOutcome → Bool
  | .zombied => true
  | _ => false

/-- The zombied check on line 201:
`self.last_heartbeat_ack_received < self.last_heartbeat_sent`, a float
comparison that is false whenever either sample is NaN. -/
def zombie_check (st : GatewayState) : Bool :=
  nanLt st.last_heartbeat_ack_received st.last_heartbeat_sent

/-- One cycle of `heartbeat_keep_alive` (lines 199-208): raise
`GatewayZombiedError` when the zombied check fires, otherwise send
`{"op": 1, "d": seq}` and stamp `last_heartbeat_sent` with the current
`perf_counter` sample `now`. -/
def heartbeat_cycle (st : GatewayState) (now : ℚ) : HbOutcome :=
  if zombie_check st then
    .zombied
  else
    .sent (heartbeat_payload st.seq) { st with last_heartbeat_sent := some now }

/-- `GatewayClient.identify` (lines 156-179): the IDENTIFY payload.  The
`properties` object is built from `platform.*` calls, i.e. from the host
environment, so it is a parameter here. -/
def identify_payload (props : JsonV) (st : GatewayState) : JsonV :=
  .obj [("op", .num 2),
        ("d", .obj ([("token", .str st.token),
                     ("compress", .bool false),
                     ("large_threshold", .num (st.large_threshold : ℚ)),
                     ("properties", props),
                     ("guild_subscriptions", .bool st.guild_subscriptions),
                     ("shard", .arr [.num (st.shard_id : ℚ), .num (st.shard_count : ℚ)])]
                    ++ (match st.presence with
                        | some p => [("presence", p)]
                        | none => [])))]

/-- `GatewayClient.resume` (lines 181-187): the RESUME payload. -/
def resume_payload (st : GatewayState) : JsonV :=
  .obj [("op", .num 6),
        ("d", .obj [("token", .str st.token),
                    ("seq", optIntJson st.seq),
                    ("session_id", optStrJson st.session_id)])]

/-- The authentication step of `connect` (lines 139-144): IDENTIFY when
`session_id is None`, RESUME otherwise. -/
def auth_step (props : JsonV) (st : GatewayState) : JsonV :=
  if st.session_id = none then identify_payload props st else resume_payload st

/-- The handshake part of `connect` (lines 128-144): parse HELLO — raising
`GatewayError` unless the opcode is 10 —, cache
`heartbeat_interval = d.heartbeat_interval / 1000`, then produce the
authentication payload. -/
def connect_handshake (props : JsonV) (st : GatewayState) (hello : JsonV) :
    Except GwError (ℚ × JsonV) :=
  match jget hello "op" with
  | some (.num q) =>
      if q = 10 then
        match jgetD hello "heartbeat_interval" with
        | some (.num iv) => .ok (iv / 1000, auth_step props st)
        | _ => .error (.gatewayError "KeyError")
      else
        .error (.gatewayError "Expected HELLO opcode 10")
  | _ => .error (.gatewayError "Expected HELLO opcode 10")

/-- The `finally` clause of `connect` (lines 149-154): reset `connected_at`
and the four timing samples to NaN.  Nothing else is touched. -/
def connect_finally (st : GatewayState) : GatewayState :=
  { st with connected_at := none
            last_ping_sent := none
            last_pong_received := none
            last_heartbeat_sent := none
            last_heartbeat_ack_received := none }

/-- Modelled from the spec: numeric values of `GatewayCloseCode` live in
`hikari/net/errors.py`, which is not among the provided sources; the names
come from the close-code table of the spec and the values from the gateway close
event codes of the opcode documentation referenced at the top of
`gateway.py`. -/
def AUTHENTICATION_FAILED : Nat := 4004

/-- Modelled from the spec: see `AUTHENTICATION_FAILED`. -/
def INVALID_SEQ : Nat := 4007

/-- Modelled from the spec: see `AUTHENTICATION_FAILED`. -/
def SESSION_TIMEOUT : Nat := 4009

/-- Modelled from the spec: see `AUTHENTICATION_FAILED`. -/
def SHARDING_REQUIRED : Nat := 4011

/-- The CLOSE branch of `recv` (lines 274-284): map the close code of a CLOSE
frame to the raised gateway error. -/
def closeErrorOf (close_code : Nat) : GwError :=
  if close_code = AUTHENTICATION_FAILED then .invalidToken
  else if close_code = SESSION_TIMEOUT ∨ close_code = INVALID_SEQ then .invalidSession false
  else if close_code = SHARDING_REQUIRED then .needsSharding
  else .connectionClosed close_code

/-- An inbound WebSocket message, by `aiohttp.WSMsgType`.  Binary data is a
byte list; the close code carried by a CLOSE frame is read off
`self.ws.close_code`. -/
inductive Msg where
  | text (data : String)
  | binary (data : List Nat)
  | ping
  | pong
  | close (code : Nat)
  | closing
  | closed
  | wsError

/-- A successful `recv` outcome: the data handed to `json_deserialize` (text
frame data, or the inflated bytes of a zlib-stream payload), the inflate
context after the call, and the messages still unread. -/
structure RecvOk (Z : Type) where
  payload : String ⊕ List Nat
  zctx : Z
  rest : List Msg

/-- The zlib-stream payload boundary sentinel `00 00 FF FF`. -/
def sentinel : List Nat := [0, 0, 255, 255]

/-- `buffer.endswith(b"\x00\x00\xff\xff")`. -/
def endsWithSentinel (buffer : List Nat) : Bool :=
  sentinel.isSuffixOf buffer

/-- The BINARY branch of `recv` (lines 254-266): accumulate binary frames
into `buffer` until it ends with the sentinel, then inflate the accumulated
bytes with the persistent inflate context `z` (type `Z` abstracts `self.zlib`;
`inflate` is `zlib.decompressobj().decompress`, returning the output and the
updated context).  A non-binary frame inside a fragmented payload raises
`GatewayError`; `none` means the stream ran dry with the payload still
incomplete, i.e. `recv` is still waiting and has emitted nothing. -/
def recvBinary {Z : Type} (inflate : Z → List Nat → List Nat × Z) (z : Z) :
    List Nat → List Msg → Option (Except GwError (RecvOk Z))
  | buffer, [] =>
    if endsWithSentinel buffer then
      some (.ok ⟨.inr (inflate z buffer).1, (inflate z buffer).2, []⟩)
    else
      none
  | buffer, m :: rest =>
    if endsWithSentinel buffer then
      some (.ok ⟨.inr (inflate z buffer).1, (inflate z buffer).2, m :: rest⟩)
    else
      match m with
      | .binary d => recvBinary inflate z (buffer ++ d) rest
      | _ => some (.error (.gatewayError "Expected a binary message"))

/-- `GatewayClient.recv` (lines 247-291) over an explicit inbound message
stream.  TEXT frames return their data for `json_deserialize`; BINARY frames
enter the accumulation loop; PING is answered with a pong and PONG stamps
`last_pong_received`, both staying in the loop (the control-frame side
effects touch no state this development reasons about, so the branches just
continue); CLOSE raises the error given by `closeErrorOf`; CLOSING/CLOSED
raise `GatewayClientClosedError`; ERROR raises `GatewayError`.  `none` means
the stream ran dry with `recv` still waiting. -/
def recv {Z : Type} (inflate : Z → List Nat → List Nat × Z) (z : Z) :
    List Msg → Option (Except GwError (RecvOk Z))
  | [] => none
  | .text s :: rest => some (.ok ⟨.inl s, z, rest⟩)
  | .binary d :: rest => recvBinary inflate z d rest
  | .ping :: rest => recv inflate z rest
  | .pong :: rest => recv inflate z rest
  | .close c :: _ => some (.error (closeErrorOf c))
  | .closing :: _ => some (.error .clientClosed)
  | .closed :: _ => some (.error .clientClosed)
  | .wsError :: _ => some (.error (.gatewayError "Unexpected exception occurred"))

/-- The write attempts `send` can make, in order: the rate-limiter `acquire`
and the socket `send_str`. -/
inductive SendEffect where
  | acquire
  | send_str (s : String)
deriving DecidableEq

/-- `GatewayClient.send` (lines 293-304): serialize, reject payloads whose
serialized text exceeds 4096 with a `GatewayError` (the same class used for
protocol errors, its message carrying the actual size) before any write
attempt; otherwise acquire a rate-limit permit and then send the text. -/
def send (json_serialize : JsonV → String) (payload : JsonV) :
    Except GwError (List SendEffect) :=
  let payload_str := json_serialize payload
  if payload_str.length > 4096 then
    .error (.gatewayError
      ("Tried to send a payload greater than 4096 bytes in size (was actually "
        ++ toString payload_str.length ++ ")"))
  else
    .ok [SendEffect.acquire, SendEffect.send_str payload_str]

/-- An inbound gateway frame as consumed by `poll_events`, after
`json_deserialize`: the protocol envelope `{op, d, s, t}`. -/
structure Frame where
  op : ℚ
  d : JsonV
  s : Option Int
  t : Option String

/-- Observable effects of one `poll_events` iteration. -/
inductive PollEffect where
  | dispatch (event_name : Option String) (payload : JsonV)
  | send (payload : JsonV)

/-- One iteration of the `poll_events` loop body (lines 210-237): route the
frame by opcode.  Opcode 0 updates `seq` from `s` and synchronously calls the
dispatch sink with `(self, t, d)`; opcode 1 replies with `{"op": 11}`; opcode
7 raises `GatewayMustReconnectError`; opcode 9 raises
`GatewayInvalidSessionError(bool(d))`; opcode 11 stamps
`last_heartbeat_ack_received` with the current `perf_counter` sample `now`;
anything else is logged and ignored. -/
def poll_step (st : GatewayState) (f : Frame) (now : ℚ) :
    Except GwError (GatewayState × List PollEffect) :=
  if f.op = 0 then
    .ok ({ st with seq := f.s }, [.dispatch f.t f.d])
  else if f.op = 1 then
    .ok (st, [.send (.obj [("op", .num 11)])])
  else if f.op = 7 then
    .error .mustReconnect
  else if f.op = 9 then
    .error (.invalidSession (jsonTruthy f.d))
  else if f.op = 11 then
    .ok ({ st with last_heartbeat_ack_received := some now }, [])
  else
    .ok (st, [])

/-- `self.ws.close()` guarded by `contextlib.suppress(AttributeError)`:
`none` models the `AttributeError` of `self.ws` being `None` (suppressed by
the caller); on an existing socket, open or already closed, `close()` simply
leaves it closed. -/
def ws_close_attempt (st : GatewayState) : Option GatewayState :=
  match st.ws with
  | none => none
  | some _ => some { st with ws := some false }

/-- `self.session.close()` under the same suppression. -/
def session_close_attempt (st : GatewayState) : Option GatewayState :=
  match st.session_open with
  | none => none
  | some _ => some { st with session_open := some false }

/-- `contextlib.suppress(AttributeError)` around a close attempt: a raised
`AttributeError` leaves the state as it was. -/
def suppress_attribute_error (f : GatewayState → Option GatewayState)
    (st : GatewayState) : GatewayState :=
  (f st).getD st

/-- `GatewayClient.close` (lines 239-245): best-effort close of the socket
and the session with `AttributeError` suppressed, then set the close latch if
it is not yet set.  Total: no branch raises. -/
def close (st : GatewayState) : GatewayState :=
  let st1 := suppress_attribute_error ws_close_attempt st
  let st2 := suppress_attribute_error session_close_attempt st1
  if st2.closed_event then st2 else { st2 with closed_event := true }

/-! ## Concrete states used by witnesses and counterexamples -/

/-- Constructor arguments of the handshake scenario: `token="T"`, all other
keyword arguments left at their defaults (`session_id=None`, `seq=None`,
`shard_id=0`, `shard_count=1`, `large_threshold=1000`). -/
def sampleArgs : InitArgs := { token := "T", url := "wss://gateway.test" }

/-- A freshly constructed client. -/
def freshState : GatewayState := GatewayClient.init sampleArgs

/-- A client holding a resumable session: `session_id="S"`, `seq=42`. -/
def resumeState : GatewayState :=
  { freshState with session_id := some "S", seq := some 42 }

/-- A client that sent a heartbeat at time 2 whose ack was last seen at
time 1, i.e. the last heartbeat was never acknowledged. -/
def zombieState : GatewayState :=
  { freshState with last_heartbeat_sent := some 2,
                    last_heartbeat_ack_received := some 1 }

/-- A client in the Listening phase: socket and session open, latch unset,
all timing samples populated. -/
def listeningState : GatewayState :=
  { freshState with ws := some true, session_open := some true,
                    connected_at := some 100, last_ping_sent := some 101,
                    last_pong_received := some 102,
                    last_heartbeat_sent := some 103,
                    last_heartbeat_ack_received := some 104 }

/-! ## C1 — heartbeat cycle and the zombied check -/

/-- C1 counterexample.  The claim reads the guard as
`last_heartbeat_ack_received ≥ last_heartbeat_sent` and demands that a Zombied
error be raised whenever it fails.  On a freshly constructed client both
samples are NaN, so the IEEE `≥` is false — yet the code, which tests
`ack < sent` (also false on NaN), raises nothing and sends the heartbeat. -/
theorem heartbeat_nan_start_not_zombied :
    nanGe freshState.last_heartbeat_ack_received freshState.last_heartbeat_sent
      = false ∧
    (heartbeat_cycle freshState 1).is_zombied = false :=
  ⟨rfl, rfl⟩

/-- C1 (amended): at the start of a heartbeat cycle, if
`last_heartbeat_ack_received < last_heartbeat_sent` (IEEE comparison, false
when either sample is NaN) then a Zombied error is raised before any send;
otherwise — including the NaN case — no Zombied error is raised and the task
sends opcode 1 with payload the current `seq` and then stamps
`last_heartbeat_sent`. -/
theorem heartbeat_cycle_behavior (st : GatewayState) (now : ℚ) :
    (zombie_check st = true → heartbeat_cycle st now = .zombied) ∧
    (zombie_check st = false →
      heartbeat_cycle st now =
        .sent (heartbeat_payload st.seq)
          { st with last_heartbeat_sent := some now }) := by
  constructor <;> intro h <;> simp [heartbeat_cycle, h]

/-- C1 witness: a client whose last heartbeat (time 2) was never acked
(last ack at time 1) is declared zombied. -/
theorem heartbeat_cycle_behavior_witness :
    heartbeat_cycle zombieState 3 = HbOutcome.zombied :=
  (heartbeat_cycle_behavior zombieState 3).1 (by decide)

/-! ## C2 — authentication step: IDENTIFY vs RESUME -/

/-- C2: during the authentication step of `connect`, a client with
`session_id = None` sends IDENTIFY (opcode 2); a client with a session id
sends RESUME, whose payload is opcode 6 with
`d = {token, seq, session_id}` using the current `seq`. -/
theorem auth_step_identify_or_resume (props : JsonV) (st : GatewayState) :
    (st.session_id = none →
      auth_step props st = identify_payload props st ∧
      jget (identify_payload props st) "op" = some (JsonV.num 2)) ∧
    (st.session_id ≠ none →
      auth_step props st = resume_payload st ∧
      resume_payload st =
        JsonV.obj [("op", JsonV.num 6),
                   ("d", JsonV.obj [("token", JsonV.str st.token),
                                    ("seq", optIntJson st.seq),
                                    ("session_id", optStrJson st.session_id)])]) := by
  refine ⟨fun h => ⟨by simp [auth_step, h], rfl⟩,
          fun h => ⟨by simp [auth_step, h], rfl⟩⟩

/-- C2 witness: the RESUME scenario of the spec, `session_id="S"`, `seq=42`,
`token="T"`. -/
theorem auth_step_identify_or_resume_witness :
    auth_step (JsonV.obj []) resumeState = resume_payload resumeState ∧
    resume_payload resumeState =
      JsonV.obj [("op", JsonV.num 6),
                 ("d", JsonV.obj [("token", JsonV.str "T"),
                                  ("seq", JsonV.num 42),
                                  ("session_id", JsonV.str "S")])] :=
  (auth_step_identify_or_resume (JsonV.obj []) resumeState).2 (by decide)

/-! ## C6 — poll loop, opcode 0 -/

/-- C6: for every inbound frame with `op = 0`, the poll loop sets `seq` to
the `s` field of the frame and synchronously calls the dispatch sink with
`(self, event_name, payload)` where `event_name` is the `t` field and the
payload the `d` field. -/
theorem poll_step_dispatch (st : GatewayState) (f : Frame) (now : ℚ)
    (h : f.op = 0) :
    poll_step st f now =
      .ok ({ st with seq := f.s }, [.dispatch f.t f.d]) := by
  simp [poll_step, h]

/-- C6 witness: the dispatch scenario of the spec,
`{"op":0,"s":43,"t":"MESSAGE_CREATE","d":{}}`. -/
theorem poll_step_dispatch_witness :
    poll_step freshState ⟨0, JsonV.obj [], some 43, some "MESSAGE_CREATE"⟩ 7 =
      .ok ({ freshState with seq := some 43 },
           [.dispatch (some "MESSAGE_CREATE") (JsonV.obj [])]) :=
  poll_step_dispatch freshState ⟨0, JsonV.obj [], some 43, some "MESSAGE_CREATE"⟩ 7 rfl

/-! ## C8 — what happens when connect terminates -/

/-- C8 counterexample.  The claim says that when `connect` terminates the
sibling tasks are cancelled, the WebSocket and session are closed and the
close latch is set.  The `finally` clause of `connect` does none of that: on
a Listening-phase state it leaves the latch unset and both the socket and the
session open (it also cancels no task — `asyncio.gather` lets the surviving
siblings keep running). -/
theorem connect_finally_no_teardown :
    (connect_finally listeningState).closed_event = false ∧
    (connect_finally listeningState).ws = some true ∧
    (connect_finally listeningState).session_open = some true :=
  ⟨rfl, rfl, rfl⟩

/-- C8 (amended): whenever `connect` terminates, its `finally` clause resets
the four timing samples and `connected_at` to the absent value, so the client
reports disconnected; it does not set the close latch, does not close the
WebSocket or the session, and cancels no sibling task — those effects only
happen through an explicit `close()` call. -/
theorem connect_finally_resets_timing (st : GatewayState) :
    connect_finally st =
      { st with connected_at := none, last_ping_sent := none,
                last_pong_received := none, last_heartbeat_sent := none,
                last_heartbeat_ack_received := none } ∧
    is_connected (connect_finally st) = false ∧
    (connect_finally st).closed_event = st.closed_event ∧
    (connect_finally st).ws = st.ws ∧
    (connect_finally st).session_open = st.session_open :=
  ⟨rfl, rfl, rfl, rfl, rfl⟩

/-! ## C9 — close() is idempotent and total -/

/-- C9: `close()` never raises — both close attempts suppress
`AttributeError` and an existing socket or session tolerates repeated
closing, so `close` is a total function on states — it leaves the close
latch set, and it is idempotent: any further call changes nothing. -/
theorem close_idempotent_latch (st : GatewayState) :
    (close st).closed_event = true ∧ close (close st) = close st := by
  obtain ⟨ce, ca, hs, ha, lp, lpo, pr, so, sid, sq, shi, shc, tk, lt, gs, cp, ws⟩ := st
  cases ws <;> cases so <;> cases ce <;>
    simp [close, suppress_attribute_error, ws_close_attempt, session_close_attempt]

/-! ## C10 — NaN samples make Zombied unreachable before the first heartbeat -/

/-- C10: on a freshly constructed client and after the reset in the
`finally` clause of `connect`, `last_heartbeat_sent` and
`last_heartbeat_ack_received` hold the absent value; the zombied check is
false whenever either sample is absent, so Zombied is only raisable when a
heartbeat was sent at some time `s` and the last ack predates it. -/
theorem zombie_check_requires_heartbeat (a : InitArgs) (st : GatewayState) :
    (GatewayClient.init a).last_heartbeat_sent = none ∧
    (GatewayClient.init a).last_heartbeat_ack_received = none ∧
    (connect_finally st).last_heartbeat_sent = none ∧
    (connect_finally st).last_heartbeat_ack_received = none ∧
    (st.last_heartbeat_sent = none → zombie_check st = false) ∧
    (st.last_heartbeat_ack_received = none → zombie_check st = false) ∧
    (zombie_check st = true →
      ∃ s ack, st.last_heartbeat_sent = some s ∧
        st.last_heartbeat_ack_received = some ack ∧ ack < s) := by
  refine ⟨rfl, rfl, rfl, rfl, ?_, ?_, ?_⟩
  · intro h
    cases hack : st.last_heartbeat_ack_received <;>
      simp [zombie_check, nanLt, h, hack]
  · intro h
    simp [zombie_check, nanLt, h]
  · intro h
    cases hsent : st.last_heartbeat_sent with
    | none => simp [zombie_check, nanLt, hsent] at h
    | some s =>
        cases hack : st.last_heartbeat_ack_received with
        | none => simp [zombie_check, nanLt, hsent, hack] at h
        | some ack =>
            refine ⟨s, ack, rfl, rfl, ?_⟩
            have := h ▸ (by simp [zombie_check, hsent, hack, nanLt] :
              zombie_check st = decide (ack < s))
            exact of_decide_eq_true this.symm

/-- C10 witness: on `zombieState` the check fires and the extracted
send/ack pair satisfies `ack < sent`. -/
theorem zombie_check_requires_heartbeat_witness :
    ∃ s ack, zombieState.last_heartbeat_sent = some s ∧
      zombieState.last_heartbeat_ack_received = some ack ∧ ack < s :=
  (zombie_check_requires_heartbeat sampleArgs zombieState).2.2.2.2.2.2 (by decide)

/-! ## C3 — CLOSE frames map to errors by close code -/

/-- C3: when `recv` observes a CLOSE frame the raised error is determined by
the close code: AUTHENTICATION_FAILED raises the fatal
`GatewayInvalidTokenError`; SESSION_TIMEOUT and INVALID_SEQ raise the
restartable `GatewayInvalidSessionError(False)`; SHARDING_REQUIRED raises the
fatal `GatewayNeedsShardingError`; every other code raises
`GatewayConnectionClosedError` carrying that code. -/
theorem recv_close_code_errors {Z : Type} (inflate : Z → List Nat → List Nat × Z)
    (z : Z) (c : Nat) (rest : List Msg) :
    recv inflate z (Msg.close c :: rest) = some (.error (closeErrorOf c)) ∧
    closeErrorOf AUTHENTICATION_FAILED = .invalidToken ∧
    closeErrorOf SESSION_TIMEOUT = .invalidSession false ∧
    closeErrorOf INVALID_SEQ = .invalidSession false ∧
    closeErrorOf SHARDING_REQUIRED = .needsSharding ∧
    (c ≠ AUTHENTICATION_FAILED → c ≠ SESSION_TIMEOUT → c ≠ INVALID_SEQ →
      c ≠ SHARDING_REQUIRED → closeErrorOf c = .connectionClosed c) := by
  refine ⟨rfl, rfl, rfl, rfl, rfl, ?_⟩
  intro h1 h2 h3 h4
  simp [closeErrorOf, h1, h2, h3, h4]

/-- C3 witness: the unclassified close code 1000 raises
`GatewayConnectionClosedError(1000)`. -/
theorem recv_close_code_errors_witness :
    closeErrorOf 1000 = GwError.connectionClosed 1000 ∧
    recv (fun (z : Nat) (b : List Nat) => (b, z)) 0 [Msg.close 1000] =
      some (.error (closeErrorOf 1000)) :=
  ⟨(recv_close_code_errors (fun (z : Nat) (b : List Nat) => (b, z)) 0 1000 []).2.2.2.2.2
      (by decide) (by decide) (by decide) (by decide),
   (recv_close_code_errors (fun (z : Nat) (b : List Nat) => (b, z)) 0 1000 []).1⟩

/-! ## C5 — oversize outbound payloads -/

/-- The error, if any, of a `send` outcome. -/
def send_error : Except GwError (List SendEffect) → Option GwError
  | .error e => some e
  | .ok _ => none

/-- A serializer whose output is 4097 characters long, regardless of input. -/
def oversized_serialize : JsonV → String :=
  fun _ => String.mk (List.replicate 4097 'a')

/-- A serializer for the small-payload witness. -/
def null_serialize : JsonV → String := fun _ => "null"

/-- C5 counterexample.  The claim says an oversize payload raises the
dedicated *PayloadTooLarge* error.  The code has no such variant: it raises
the generic `GatewayError` — the same class used for protocol violations —
with the size only mentioned in the message text. -/
theorem send_oversize_not_payload_too_large :
    (send_error (send oversized_serialize JsonV.null)).map
        GwError.is_payload_too_large = some false ∧
    (send_error (send oversized_serialize JsonV.null)).map
        GwError.is_gateway_error = some true := by
  have hlen : (oversized_serialize JsonV.null).length = 4097 := by
    show (String.mk (List.replicate 4097 'a')).length = 4097
    rw [String.length_mk, List.length_replicate]
  constructor <;>
    simp [send, send_error, hlen, GwError.is_payload_too_large,
          GwError.is_gateway_error]

/-- C5 (amended): if the serialized text is longer than 4096, `send` raises
the generic `GatewayError` (its message reporting the actual size) and
performs no write attempt — neither the rate-limiter acquire nor the socket
send occurs; otherwise the effects are exactly the rate-limiter acquire
followed by the socket send of the serialized text. -/
theorem send_oversize_behavior (js : JsonV → String) (payload : JsonV) :
    ((js payload).length > 4096 →
      send js payload = .error (.gatewayError
        ("Tried to send a payload greater than 4096 bytes in size (was actually "
          ++ toString (js payload).length ++ ")"))) ∧
    (¬ (js payload).length > 4096 →
      send js payload =
        .ok [SendEffect.acquire, SendEffect.send_str (js payload)]) := by
  constructor <;> intro h <;> simp [send, h]

/-- C5 witness: a 4-character payload is sent — acquire, then the socket
write. -/
theorem send_oversize_behavior_witness :
    send null_serialize JsonV.null =
      .ok [SendEffect.acquire, SendEffect.send_str "null"] :=
  (send_oversize_behavior null_serialize JsonV.null).2 (by decide)

/-! ## C7 — the IDENTIFY handshake scenario -/

/-- The HELLO frame of the handshake scenario:
`{"op":10,"d":{"heartbeat_interval":41250}}`. -/
def hello_frame : JsonV :=
  .obj [("op", .num 10), ("d", .obj [("heartbeat_interval", .num 41250)])]

/-- C7: a client constructed with `session_id=None`, `token="T"`,
`shard_id=0`, `shard_count=1` and the default `large_threshold`, upon the
HELLO above, produces as its first outbound frame an opcode-2 IDENTIFY with
`d.token="T"`, `d.shard=[0,1]`, `d.large_threshold=1000`,
`d.compress=false`, and the heartbeat task is started with period
`heartbeat_interval / 1000 = 41.25` seconds. -/
theorem handshake_identify_scenario (props : JsonV) :
    connect_handshake props freshState hello_frame
      = .ok ((41250 : ℚ) / 1000, identify_payload props freshState) ∧
    (41250 : ℚ) / 1000 = 41.25 ∧
    jget (identify_payload props freshState) "op" = some (JsonV.num 2) ∧
    jgetD (identify_payload props freshState) "token" = some (JsonV.str "T") ∧
    jgetD (identify_payload props freshState) "shard"
      = some (JsonV.arr [JsonV.num 0, JsonV.num 1]) ∧
    jgetD (identify_payload props freshState) "large_threshold"
      = some (JsonV.num 1000) ∧
    jgetD (identify_payload props freshState) "compress"
      = some (JsonV.bool false) := by
  refine ⟨rfl, by norm_num, rfl, rfl, ?_, ?_, rfl⟩
  · show some (JsonV.arr [JsonV.num (0 : Nat), JsonV.num (1 : Nat)]) = _
    norm_num
  · show some (JsonV.num (1000 : Nat)) = _
    norm_num

/-! ## C4 — zlib-stream accumulation in recv -/

/-- Unfolding: a BINARY frame enters the accumulation loop with the frame
data as the initial buffer. -/
lemma recv_binary_frame {Z : Type} (inflate : Z → List Nat → List Nat × Z)
    (z : Z) (d : List Nat) (rest : List Msg) :
    recv inflate z (Msg.binary d :: rest) = recvBinary inflate z d rest := by
  rw [recv.eq_def]

/-- A buffer already ending in the sentinel is inflated at once. -/
lemma recvBinary_sentinel {Z : Type} (inflate : Z → List Nat → List Nat × Z)
    (z : Z) (buffer : List Nat) (msgs : List Msg)
    (h : endsWithSentinel buffer = true) :
    recvBinary inflate z buffer msgs =
      some (.ok ⟨.inr (inflate z buffer).1, (inflate z buffer).2, msgs⟩) := by
  cases msgs <;> simp [recvBinary, h]

/-- A buffer not yet ending in the sentinel absorbs the next binary frame. -/
lemma recvBinary_step {Z : Type} (inflate : Z → List Nat → List Nat × Z)
    (z : Z) (buffer d : List Nat) (rest : List Msg)
    (h : endsWithSentinel buffer = false) :
    recvBinary inflate z buffer (Msg.binary d :: rest) =
      recvBinary inflate z (buffer ++ d) rest := by
  simp [recvBinary, h]

/-- A buffer not ending in the sentinel with no frame left: still waiting,
nothing emitted. -/
lemma recvBinary_empty {Z : Type} (inflate : Z → List Nat → List Nat × Z)
    (z : Z) (buffer : List Nat)
    (h : endsWithSentinel buffer = false) :
    recvBinary inflate z buffer [] = none := by
  simp [recvBinary, h]

/-- The accumulation loop: as long as no intermediate buffer ends in the
sentinel, all binary chunks are appended in order, and when the full
concatenation ends in the sentinel it is inflated — once — with the inflate
context carried in, the updated context carried out, and the remaining
message stream untouched. -/
lemma recvBinary_accumulate {Z : Type} (inflate : Z → List Nat → List Nat × Z)
    (rest : List Msg) :
    ∀ (chunks : List (List Nat)) (z : Z) (buffer : List Nat),
      (∀ k, k < chunks.length →
        endsWithSentinel (buffer ++ (chunks.take k).flatten) = false) →
      endsWithSentinel (buffer ++ chunks.flatten) = true →
      recvBinary inflate z buffer (chunks.map Msg.binary ++ rest) =
        some (.ok ⟨.inr (inflate z (buffer ++ chunks.flatten)).1,
                   (inflate z (buffer ++ chunks.flatten)).2, rest⟩) := by
  intro chunks
  induction chunks with
  | nil =>
      intro z buffer _ hfull
      rw [List.flatten_nil, List.append_nil] at hfull ⊢
      rw [List.map_nil, List.nil_append]
      exact recvBinary_sentinel inflate z buffer rest hfull
  | cons c cs ih =>
      intro z buffer hpre hfull
      have h0 : endsWithSentinel buffer = false := by
        have h := hpre 0 (by simp)
        rwa [List.take_zero, List.flatten_nil, List.append_nil] at h
      rw [List.map_cons, List.cons_append,
          recvBinary_step inflate z buffer c _ h0]
      have hfull' : endsWithSentinel ((buffer ++ c) ++ cs.flatten) = true := by
        rwa [List.flatten_cons, ← List.append_assoc] at hfull
      have hpre' : ∀ k, k < cs.length →
          endsWithSentinel ((buffer ++ c) ++ (cs.take k).flatten) = false := by
        intro k hk
        have h := hpre (k + 1) (by simpa using Nat.succ_lt_succ hk)
        rwa [List.take_succ_cons, List.flatten_cons, ← List.append_assoc] at h
      rw [ih z (buffer ++ c) hpre' hfull']
      rw [List.flatten_cons, ← List.append_assoc]

/-- The accumulation loop on a stream that runs dry without the sentinel
ever appearing: no payload is emitted. -/
lemma recvBinary_exhausted {Z : Type} (inflate : Z → List Nat → List Nat × Z) :
    ∀ (chunks : List (List Nat)) (z : Z) (buffer : List Nat),
      (∀ k, k ≤ chunks.length →
        endsWithSentinel (buffer ++ (chunks.take k).flatten) = false) →
      recvBinary inflate z buffer (chunks.map Msg.binary) = none := by
  intro chunks
  induction chunks with
  | nil =>
      intro z buffer hpre
      have h0 : endsWithSentinel buffer = false := by
        have h := hpre 0 (by simp)
        rwa [List.take_zero, List.flatten_nil, List.append_nil] at h
      rw [List.map_nil]
      exact recvBinary_empty inflate z buffer h0
  | cons c cs ih =>
      intro z buffer hpre
      have h0 : endsWithSentinel buffer = false := by
        have h := hpre 0 (by simp)
        rwa [List.take_zero, List.flatten_nil, List.append_nil] at h
      rw [List.map_cons, recvBinary_step inflate z buffer c _ h0]
      apply ih
      intro k hk
      have h := hpre (k + 1) (by simpa using Nat.succ_le_succ hk)
      rwa [List.take_succ_cons, List.flatten_cons, ← List.append_assoc] at h

/-- C4: for every sequence of inbound BINARY frames, `recv` accumulates
their bytes into a buffer until the buffer ends with the 4-byte sentinel
`00 00 FF FF`, at which point it inflates the accumulated bytes with the
persistent inflate context and returns exactly one decoded payload, leaving
the remaining stream untouched; a binary frame (or concatenation of binary
frames) not ending in the sentinel emits no payload and receiving
continues. -/
theorem recv_binary_accumulation {Z : Type} (inflate : Z → List Nat → List Nat × Z)
    (z : Z) (d0 : List Nat) (ds : List (List Nat)) (rest : List Msg) :
    ((∀ k, k < (d0 :: ds).length →
        endsWithSentinel (((d0 :: ds).take k).flatten) = false) →
      endsWithSentinel ((d0 :: ds).flatten) = true →
      recv inflate z ((d0 :: ds).map Msg.binary ++ rest) =
        some (.ok ⟨.inr (inflate z ((d0 :: ds).flatten)).1,
                   (inflate z ((d0 :: ds).flatten)).2, rest⟩)) ∧
    ((∀ k, k ≤ (d0 :: ds).length →
        endsWithSentinel (((d0 :: ds).take k).flatten) = false) →
      recv inflate z ((d0 :: ds).map Msg.binary) = none) := by
  constructor
  · intro hpre hfull
    have hpre' : ∀ k, k < ds.length →
        endsWithSentinel (d0 ++ (ds.take k).flatten) = false := by
      intro k hk
      have h := hpre (k + 1) (by simpa using Nat.succ_lt_succ hk)
      rwa [List.take_succ_cons, List.flatten_cons] at h
    have hfull' : endsWithSentinel (d0 ++ ds.flatten) = true := by
      rwa [List.flatten_cons] at hfull
    rw [List.map_cons, List.cons_append, recv_binary_frame,
        recvBinary_accumulate inflate rest ds z d0 hpre' hfull']
    rw [List.flatten_cons]
  · intro hpre
    have hpre' : ∀ k, k ≤ ds.length →
        endsWithSentinel (d0 ++ (ds.take k).flatten) = false := by
      intro k hk
      have h := hpre (k + 1) (by simpa using Nat.succ_le_succ hk)
      rwa [List.take_succ_cons, List.flatten_cons] at h
    rw [List.map_cons, recv_binary_frame,
        recvBinary_exhausted inflate ds z d0 hpre']

/-- A stand-in inflate function for the witness: returns the raw bytes and
counts the calls in the context. -/
def test_inflate : Nat → List Nat → List Nat × Nat := fun z b => (b, z + 1)

/-- C4 witness: the zlib-stream scenario of the spec — two binary frames
whose concatenation ends in `00 00 FF FF` yield exactly one payload (here,
of the inflate stand-in) with the context threaded through. -/
theorem recv_binary_accumulation_witness :
    recv test_inflate 0 [Msg.binary [1, 2], Msg.binary [3, 0, 0, 255, 255]] =
      some (.ok ⟨.inr [1, 2, 3, 0, 0, 255, 255], 1, []⟩) :=
  (recv_binary_accumulation test_inflate 0 [1, 2] [[3, 0, 0, 255, 255]] []).1
    (by decide) (by decide)
